import Mathlib

/-!
Verification of the real-time session engine of a Pterodactyl control-panel
client (Raycast extension).  The embedding models:

* the stats message handler of `src/monitor.tsx` (network delta derivation,
  rolling history windows, baseline updates);
* the message handler and `sendCommand` of `src/console.tsx`;
* the shared session lifecycle of both components (mount, credential
  exchange, socket swap on token expiry, teardown with an `isMounted`
  relevance flag);
* `handlePowerAction` of the server-list view (confirmation gating and the
  bounded probe schedule).

Numeric values carried by stats frames are JavaScript numbers; they are
modelled as rationals (`ℚ`), which keeps every definition executable and
makes the sign tests of the delta clamp exact.  JavaScript exceptions are
modelled with `Except`: a `try`/`catch` block becomes a total wrapper that
maps `Except.error` back to the unchanged state.
-/

/-- Wire shape of a stats snapshot, `ServerStats` in `src/monitor.tsx`.
`network` is kept as a nested structure exactly as on the wire. -/
structure NetworkStats where
  rx_bytes : ℚ
  tx_bytes : ℚ
  deriving Repr, DecidableEq

/-- `ServerStats` of `src/monitor.tsx` (lines 9-19). -/
structure ServerStats where
  memory_bytes : ℚ
  memory_limit_bytes : ℚ
  cpu_absolute : ℚ
  network : NetworkStats
  state : String
  disk_bytes : ℚ
  deriving Repr, DecidableEq

/-- The network baseline kept in `lastNetRef` (`src/monitor.tsx` line 40):
the last seen cumulative counters, or `none` before the first snapshot. -/
structure NetBaseline where
  rx : ℚ
  tx : ℚ
  deriving Repr, DecidableEq

/-- Result of one metric derivation step: the two clamped deltas and the new
baseline written back into `lastNetRef`. -/
structure NetDeltas where
  rxDelta : ℚ
  txDelta : ℚ
  newBaseline : NetBaseline
  deriving Repr, DecidableEq

/-- The metric derivation step inlined in the stats branch of the monitor
message handler (`src/monitor.tsx` lines 76-89): with no baseline both
deltas stay at their initialisation value `0`; with a baseline each delta is
the raw difference when non-negative and `0` otherwise; the baseline is then
unconditionally replaced by the snapshot's cumulative counters. -/
def deriveNet (statsData : ServerStats) (lastNet : Option NetBaseline) : NetDeltas :=
  match lastNet with
  | none =>
      { rxDelta := 0, txDelta := 0,
        newBaseline := ⟨statsData.network.rx_bytes, statsData.network.tx_bytes⟩ }
  | some last =>
      let dRx := statsData.network.rx_bytes - last.rx
      let dTx := statsData.network.tx_bytes - last.tx
      { rxDelta := if dRx ≥ 0 then dRx else 0
        txDelta := if dTx ≥ 0 then dTx else 0
        newBaseline := ⟨statsData.network.rx_bytes, statsData.network.tx_bytes⟩ }

/-- `MAX_HISTORY` of `src/monitor.tsx` line 21. -/
def MAX_HISTORY : Nat := 40

/-- The four rolling history channels of the monitor (`src/monitor.tsx`
lines 25-35). -/
structure History where
  cpu : List ℚ
  memory : List ℚ
  networkIn : List ℚ
  networkOut : List ℚ
  deriving Repr, DecidableEq

/-- Initial history state: every channel is `new Array(MAX_HISTORY).fill(0)`
(`src/monitor.tsx` lines 30-35). -/
def initialHistory : History :=
  { cpu := List.replicate MAX_HISTORY 0
    memory := List.replicate MAX_HISTORY 0
    networkIn := List.replicate MAX_HISTORY 0
    networkOut := List.replicate MAX_HISTORY 0 }

/-- One push on a history channel: `[...prev.slice(1), value]`
(`src/monitor.tsx` lines 92-95). -/
def pushWindow (w : List ℚ) (v : ℚ) : List ℚ :=
  w.drop 1 ++ [v]

/-- The `setHistory` updater (`src/monitor.tsx` lines 91-103): all four
channels are pushed in lockstep from one snapshot. -/
def pushHistory (prev : History) (statsData : ServerStats) (rxDelta txDelta : ℚ) : History :=
  { cpu := pushWindow prev.cpu statsData.cpu_absolute
    memory := pushWindow prev.memory (statsData.memory_bytes / 1024 / 1024)
    networkIn := pushWindow prev.networkIn (rxDelta / 1024)
    networkOut := pushWindow prev.networkOut (txDelta / 1024) }

/-- The "current value" readout of a channel: `data[data.length - 1]` in
`renderChart` (`src/monitor.tsx` line 185). -/
def currentValue (data : List ℚ) : Option ℚ :=
  data[data.length - 1]?

/-- An inbound socket frame after `JSON.parse` classification.  `malformed`
stands for raw text on which the outer `JSON.parse` throws; for a `stats`
frame the payload is the result of the inner `JSON.parse(parsed.args[0])`,
with `none` when that parse throws. -/
inductive WireMsg where
  | malformed
  | consoleOutput (args : List String)
  | stats (payload : Option ServerStats)
  | tokenExpiring
  | other (event : String)
  deriving Repr, DecidableEq

/-- Consumer-visible state owned by the monitor component: the latest
snapshot, the network baseline ref and the four history windows. -/
structure MonitorConsumer where
  stats : Option ServerStats
  lastNet : Option NetBaseline
  history : History
  deriving Repr, DecidableEq

/-- Initial monitor component state (`src/monitor.tsx` lines 24-40). -/
def initialMonitor : MonitorConsumer :=
  { stats := none, lastNet := none, history := initialHistory }

/-- Body of the monitor `ws.on("message")` handler (`src/monitor.tsx`
lines 70-106) with exceptions propagated: a malformed outer frame or a
malformed stats payload throws out of the body.  On a good stats frame it
stores the snapshot, derives the deltas, replaces the baseline and pushes
all four history channels.  A `token expiring` frame changes no consumer
state here (it re-runs `connect`, modelled at the session level). -/
def monitorOnMessageExc (m : WireMsg) (c : MonitorConsumer) : Except Unit MonitorConsumer :=
  match m with
  | .malformed => Except.error ()
  | .stats none => Except.error ()
  | .stats (some statsData) =>
      let d := deriveNet statsData c.lastNet
      Except.ok
        { stats := some statsData
          lastNet := some d.newBaseline
          history := pushHistory c.history statsData d.rxDelta d.txDelta }
  | _ => Except.ok c

/-- The monitor message handler with its `try`/`catch` (`src/monitor.tsx`
lines 70-109): a thrown parse error is swallowed and the state is left
unchanged. -/
def monitorOnMessage (m : WireMsg) (c : MonitorConsumer) : MonitorConsumer :=
  match monitorOnMessageExc m c with
  | Except.ok c2 => c2
  | Except.error _ => c

/-- Consumer-visible state owned by the console component: the log store
and the command input field (`src/console.tsx` lines 9-10). -/
structure ConsoleConsumer where
  logs : List String
  command : String
  deriving Repr, DecidableEq

/-- Initial console component state. -/
def initialConsole : ConsoleConsumer :=
  { logs := [], command := "" }

/-- Body of the console `ws.on("message")` handler (`src/console.tsx`
lines 48-56) with exceptions propagated: a malformed frame throws; a
`console output` frame appends its args to the log store in order; a
`token expiring` frame changes no consumer state (it re-runs `connect`). -/
def consoleOnMessageExc (m : WireMsg) (c : ConsoleConsumer) : Except Unit ConsoleConsumer :=
  match m with
  | .malformed => Except.error ()
  | .consoleOutput args => Except.ok { c with logs := c.logs ++ args }
  | _ => Except.ok c

/-- The console message handler with its `try`/`catch` (`src/console.tsx`
lines 46-60). -/
def consoleOnMessage (m : WireMsg) (c : ConsoleConsumer) : ConsoleConsumer :=
  match consoleOnMessageExc m c with
  | Except.ok c2 => c2
  | Except.error _ => c

/-- C1: in the metric derivation step of the stats handler, an absent
baseline yields rxDelta = txDelta = 0; a present baseline yields
rxDelta = max 0 (snapshot.rx - baseline.rx) and
txDelta = max 0 (snapshot.tx - baseline.tx), clamping counter resets to 0;
and in both branches the new baseline is the snapshot's cumulative
counters. -/
theorem deriveNet_spec :
    (∀ statsData : ServerStats,
        deriveNet statsData none =
          { rxDelta := 0, txDelta := 0
            newBaseline := ⟨statsData.network.rx_bytes, statsData.network.tx_bytes⟩ }) ∧
    (∀ (statsData : ServerStats) (b : NetBaseline),
        deriveNet statsData (some b) =
          { rxDelta := max 0 (statsData.network.rx_bytes - b.rx)
            txDelta := max 0 (statsData.network.tx_bytes - b.tx)
            newBaseline := ⟨statsData.network.rx_bytes, statsData.network.tx_bytes⟩ }) ∧
    (∀ (statsData : ServerStats) (lastNet : Option NetBaseline),
        (deriveNet statsData lastNet).newBaseline =
          ⟨statsData.network.rx_bytes, statsData.network.tx_bytes⟩) := by
  refine ⟨fun statsData => rfl, fun statsData b => ?_, fun statsData lastNet => ?_⟩
  · have hclamp : ∀ x : ℚ, (if x ≥ 0 then x else 0) = max 0 x := by
      intro x
      rcases le_total 0 x with h | h
      · simp [ge_iff_le, h, max_eq_right h]
      · have hx : ¬ (0 : ℚ) ≤ x ∨ x = 0 := by
          rcases lt_or_eq_of_le h with h1 | h1
          · exact Or.inl (not_le.mpr h1)
          · exact Or.inr h1
        rcases hx with h1 | h1
        · simp [ge_iff_le, h1, max_eq_left h]
        · simp [h1]
    simp only [deriveNet]
    rw [hclamp, hclamp]
  · cases lastNet <;> rfl

/-- Transport status of one created `WebSocket`: whether the `open` event
has fired (connection established) and whether the socket has been
closed. -/
structure SocketState where
  established : Bool
  closed : Bool
  deriving Repr, DecidableEq

/-- `ws.close()` without the surrounding `try`/`catch`: closing a socket
whose connection was never established raises (the very case the cleanup
comment in `src/console.tsx` lines 86-91 guards against), while closing an
established — even already closed — socket succeeds idempotently. -/
def wsCloseRaw (k : SocketState) : Except Unit SocketState :=
  if k.established then Except.ok { k with closed := true }
  else Except.error ()

/-- One live session of either component (`useEffect` bodies of
`src/console.tsx` lines 15-94 and `src/monitor.tsx` lines 42-141),
parameterised by the consumer-visible state `C` it owns.  `isMounted` is the
relevance flag of the effect closure; `pending` counts in-flight
`getWebsocketCredentials` awaits; `nextSock` counts sockets created so far
and `sockSt` maps each socket id to its transport status; `socketRef`
mirrors `socketRef.current`. -/
structure Session (C : Type) where
  isMounted : Bool
  isConnected : Bool
  consumer : C
  nextSock : Nat
  sockSt : Nat → SocketState
  socketRef : Option Nat
  pending : Nat

/-- The asynchronous continuations and transport events a session can
process, one constructor per callback in the source. -/
inductive SEvent where
  | connectStart
  | credsResolve
  | credsFail
  | sockOpen (sid : Nat)
  | timerFire (sid : Nat)
  | message (sid : Nat) (m : WireMsg)
  | sockError (sid : Nat)
  | sockClose (sid : Nat)
  | teardown
  deriving Repr, DecidableEq

/-- Small-step semantics of the session lifecycle, shared verbatim by the
console and monitor components and parameterised by the component's message
handler:

* `connectStart` — a call to `connect()` begins a credential exchange;
* `credsResolve` — the `await getWebsocketCredentials` continuation: when
  the effect is still mounted it creates a fresh `WebSocket` and overwrites
  `socketRef.current`; when unmounted it returns before doing anything;
* `credsFail` — the exchange rejected; only a toast is shown, and only when
  still mounted;
* `sockOpen` — the socket's `open` event: the connection is established and,
  when mounted, `isConnected` is set (the `auth` send and the console's
  500 ms backlog timer carry no component state);
* `timerFire` — the 500 ms `send logs` timer: a bare `ws.send`, which on a
  closed socket is a no-op in the `ws` library and never touches component
  state;
* `message` — the message handler guarded by `if (!isMounted) return`; a
  `token expiring` frame additionally re-runs `connect()`;
* `sockError` / `sockClose` — reset `isConnected` when mounted;
* `teardown` — the effect cleanup: clears the relevance flag, then
  best-effort closes `socketRef.current` inside `try`/`catch`. -/
def step {C : Type} (handle : WireMsg → C → C) (e : SEvent) (s : Session C) : Session C :=
  match e with
  | .connectStart => { s with pending := s.pending + 1 }
  | .credsResolve =>
      let s1 := { s with pending := s.pending - 1 }
      if s1.isMounted then
        { s1 with
          nextSock := s1.nextSock + 1
          sockSt := fun j => if j = s1.nextSock then ⟨false, false⟩ else s1.sockSt j
          socketRef := some s1.nextSock }
      else s1
  | .credsFail => { s with pending := s.pending - 1 }
  | .sockOpen sid =>
      let s1 := { s with
        sockSt := fun j => if j = sid then { s.sockSt sid with established := true }
                           else s.sockSt j }
      if s1.isMounted then { s1 with isConnected := true } else s1
  | .timerFire _ => s
  | .message _ m =>
      if s.isMounted then
        let s1 := { s with consumer := handle m s.consumer }
        match m with
        | .tokenExpiring => { s1 with pending := s1.pending + 1 }
        | _ => s1
      else s
  | .sockError _ => if s.isMounted then { s with isConnected := false } else s
  | .sockClose _ => if s.isMounted then { s with isConnected := false } else s
  | .teardown =>
      let s1 := { s with isMounted := false }
      match s1.socketRef with
      | none => s1
      | some sid =>
          match wsCloseRaw (s1.sockSt sid) with
          | Except.ok k =>
              { s1 with sockSt := fun j => if j = sid then k else s1.sockSt j }
          | Except.error _ => s1

/-- An outbound socket frame, `JSON.stringify({event, args})`. -/
structure OutFrame where
  event : String
  args : List String
  deriving Repr, DecidableEq

/-- Toast styles that reach the user. -/
inductive ToastStyle where
  | success
  | failure
  deriving Repr, DecidableEq

/-- Result of one `sendCommand` invocation: the session afterwards, the
frame sent on the socket (if any) and the toast surfaced (if any). -/
structure SendCommandResult where
  session : Session ConsoleConsumer
  sentFrame : Option OutFrame
  toast : Option ToastStyle

/-- JavaScript's `String.prototype.trim`: strip leading and trailing
whitespace, here over the string's character list so that it evaluates by
plain structural recursion. -/
def jsTrim (s : String) : String :=
  String.mk (((s.toList.dropWhile Char.isWhitespace).reverse.dropWhile
    Char.isWhitespace).reverse)

/-- `sendCommand` of `src/console.tsx` lines 96-105: a blank command
(`!command.trim()`) is rejected silently up front; with a socket present
and connected the command frame is sent, the input is cleared and a success
toast shown; otherwise a failure toast is shown and nothing else happens. -/
def sendCommand (s : Session ConsoleConsumer) : SendCommandResult :=
  if jsTrim s.consumer.command = "" then
    { session := s, sentFrame := none, toast := none }
  else if s.socketRef.isSome && s.isConnected then
    { session := { s with consumer := { s.consumer with command := "" } }
      sentFrame := some ⟨"send command", [s.consumer.command]⟩
      toast := some ToastStyle.success }
  else
    { session := s, sentFrame := none, toast := some ToastStyle.failure }

/-- The four power signals (`src/api/pterodactyl.ts` line 43). -/
inductive PowerSignal where
  | start
  | stop
  | restart
  | kill
  deriving Repr, DecidableEq

/-- Style given to the confirmation dialog's primary action
(`handlePowerAction`, destructive for `kill` and `stop`). -/
inductive AlertActionStyle where
  | destructive
  | standard
  deriving Repr, DecidableEq

/-- The primary-action style chosen in `handlePowerAction` (line 159 of the
list view). -/
def confirmStyle (signal : PowerSignal) : AlertActionStyle :=
  if signal = PowerSignal.kill ∨ signal = PowerSignal.stop then
    AlertActionStyle.destructive
  else AlertActionStyle.standard

/-- Observable outcome of one `handlePowerAction` run: the signals actually
posted to the REST power endpoint, the delays of the refresh probes
scheduled, and the final toast style. -/
structure PowerOutcome where
  powerCalls : List PowerSignal
  probeDelays : List Nat
  toast : Option ToastStyle
  deriving Repr, DecidableEq

/-- The fixed probe schedule (`const delays` in `handlePowerAction`),
in milliseconds. -/
def powerProbeDelays : List Nat :=
  [1000, 2000, 4000, 6000, 10000, 15000, 20000, 30000]

/-- `handlePowerAction` of the server-list view (lines 151-185):
`confirmed` is the result of the `confirmAlert` dialog and `sendOk` whether
the `setPowerState` request succeeds.  A declined confirmation returns
before anything is sent; a successful send schedules the fixed probe
delays; a failed send surfaces a failure toast and schedules nothing. -/
def handlePowerAction (signal : PowerSignal) (confirmed : Bool) (sendOk : Bool) :
    PowerOutcome :=
  if !confirmed then
    { powerCalls := [], probeDelays := [], toast := none }
  else if sendOk then
    { powerCalls := [signal], probeDelays := powerProbeDelays
      toast := some ToastStyle.success }
  else
    { powerCalls := [signal], probeDelays := [], toast := some ToastStyle.failure }

/-- C5: dispatching a frame whose raw text is not valid JSON never throws
and produces no state change — the handler body would throw (modelled by
`Except.error`), the `try`/`catch` wrapper swallows it, and the log store,
stats, baseline and history windows are all left unchanged in both
components. -/
theorem malformed_frame_spec :
    (∀ c : ConsoleConsumer, consoleOnMessageExc WireMsg.malformed c = Except.error ()) ∧
    (∀ c : ConsoleConsumer, consoleOnMessage WireMsg.malformed c = c) ∧
    (∀ c : MonitorConsumer, monitorOnMessageExc WireMsg.malformed c = Except.error ()) ∧
    (∀ c : MonitorConsumer, monitorOnMessage WireMsg.malformed c = c) :=
  ⟨fun _ => rfl, fun _ => rfl, fun _ => rfl, fun _ => rfl⟩

/-- C6: delivering any sequence of well-formed `console output` frames in
order leaves the log store equal to the previous store followed by the
concatenation of all their args batches in arrival order; in particular the
batches `["a"]`, `["b","c"]`, `["d"]` starting from the empty store yield
`["a","b","c","d"]`. -/
theorem console_output_append_spec :
    (∀ (batches : List (List String)) (c : ConsoleConsumer),
        (batches.foldl (fun acc args => consoleOnMessage (WireMsg.consoleOutput args) acc)
            c).logs = c.logs ++ batches.flatten) ∧
    ((([["a"], ["b", "c"], ["d"]] : List (List String)).foldl
        (fun acc args => consoleOnMessage (WireMsg.consoleOutput args) acc)
        initialConsole).logs = ["a", "b", "c", "d"]) := by
  constructor
  · intro batches
    induction batches with
    | nil => intro c; simp
    | cons a t ih =>
        intro c
        simp only [List.foldl_cons, List.flatten_cons]
        rw [ih]
        simp [consoleOnMessage, consoleOnMessageExc]
  · rfl

/-- C8: the REST power endpoint is never invoked without prior user
confirmation — whenever the confirmation dialog is declined, no power
request is posted, no refresh probes are scheduled and no toast is shown,
for every signal; in particular `kill` without confirmation never calls the
endpoint. -/
theorem power_confirmation_spec :
    (∀ (signal : PowerSignal) (sendOk : Bool),
        handlePowerAction signal false sendOk =
          { powerCalls := [], probeDelays := [], toast := none }) ∧
    (∀ sendOk : Bool,
        (handlePowerAction PowerSignal.kill false sendOk).powerCalls = []) :=
  ⟨fun _ _ => rfl, fun _ => rfl⟩

/-- C9: after a confirmed power signal whose send succeeds, exactly the
fixed probe schedule 1s, 2s, 4s, 6s, 10s, 15s, 20s, 30s is set up and a
success toast shown; when the send fails, no probes are scheduled and the
failure is surfaced immediately. -/
theorem power_probe_spec :
    (∀ signal : PowerSignal,
        handlePowerAction signal true true =
          { powerCalls := [signal]
            probeDelays := [1000, 2000, 4000, 6000, 10000, 15000, 20000, 30000]
            toast := some ToastStyle.success }) ∧
    (∀ signal : PowerSignal,
        handlePowerAction signal true false =
          { powerCalls := [signal], probeDelays := []
            toast := some ToastStyle.failure }) :=
  ⟨fun _ => rfl, fun _ => rfl⟩

/-- A concrete console session that is not connected but holds a non-blank
command in the input field. -/
def sNotConnected : Session ConsoleConsumer :=
  { isMounted := true
    isConnected := false
    consumer := { logs := ["boot"], command := "help" }
    nextSock := 1
    sockSt := fun _ => ⟨true, false⟩
    socketRef := some 0
    pending := 0 }

/-- A concrete connected console session whose input field holds only
whitespace. -/
def sBlankCommand : Session ConsoleConsumer :=
  { isMounted := true
    isConnected := true
    consumer := { logs := ["boot"], command := "   " }
    nextSock := 1
    sockSt := fun _ => ⟨true, false⟩
    socketRef := some 0
    pending := 0 }

/-- C7: sending a non-blank command while not connected surfaces a failure
toast ("Not connected"), sends nothing on the socket and leaves the whole
session — log store and input field included — unchanged; and the input
field is only ever cleared by a successful send. -/
theorem sendCommand_rejected_spec :
    (∀ s : Session ConsoleConsumer,
        jsTrim s.consumer.command ≠ "" →
        (s.socketRef.isSome && s.isConnected) = false →
        sendCommand s =
          { session := s, sentFrame := none, toast := some ToastStyle.failure }) ∧
    (∀ s : Session ConsoleConsumer,
        (sendCommand s).session.consumer.command ≠ s.consumer.command →
        (sendCommand s).toast = some ToastStyle.success ∧
        (sendCommand s).session.consumer.command = "") := by
  constructor
  · intro s h1 h2
    simp [sendCommand, h1, h2]
  · intro s hchange
    by_cases h1 : jsTrim s.consumer.command = ""
    · simp [sendCommand, h1] at hchange
    · by_cases h2 : (s.socketRef.isSome && s.isConnected) = true
      · simp [sendCommand, h1, h2]
      · simp [sendCommand, h1, h2] at hchange

/-- C7 witness: the rejection branch evaluated on `sNotConnected`. -/
theorem sendCommand_rejected_spec_witness :
    sendCommand sNotConnected =
      { session := sNotConnected, sentFrame := none, toast := some ToastStyle.failure } :=
  sendCommand_rejected_spec.1 sNotConnected (by decide) rfl

/-- C10: invoking `sendCommand` with a command that is empty or whitespace
only is a complete no-op regardless of connection state: nothing is sent,
no toast of either style is surfaced, and the session — input field
included — is unchanged. -/
theorem sendCommand_blank_noop_spec :
    ∀ s : Session ConsoleConsumer, jsTrim s.consumer.command = "" →
      sendCommand s = { session := s, sentFrame := none, toast := none } := by
  intro s h
  simp [sendCommand, h]

/-- C10 witness: the blank-command guard evaluated on `sBlankCommand`. -/
theorem sendCommand_blank_noop_spec_witness :
    sendCommand sBlankCommand =
      { session := sBlankCommand, sentFrame := none, toast := none } :=
  sendCommand_blank_noop_spec sBlankCommand (by decide)

/-- A concrete mounted console session with one established socket. -/
def sLiveConsole : Session ConsoleConsumer :=
  { isMounted := true
    isConnected := true
    consumer := { logs := ["boot"], command := "" }
    nextSock := 1
    sockSt := fun _ => ⟨true, false⟩
    socketRef := some 0
    pending := 0 }

/-- A concrete torn-down console session with a credential exchange still
in flight. -/
def sDeadConsole : Session ConsoleConsumer :=
  { isMounted := false
    isConnected := false
    consumer := { logs := ["boot"], command := "x" }
    nextSock := 1
    sockSt := fun _ => ⟨true, true⟩
    socketRef := some 0
    pending := 1 }

/-- A concrete mounted monitor session with one established socket. -/
def sLiveMonitor : Session MonitorConsumer :=
  { isMounted := true
    isConnected := true
    consumer := { stats := none, lastNet := some ⟨100, 200⟩, history := initialHistory }
    nextSock := 1
    sockSt := fun _ => ⟨true, false⟩
    socketRef := some 0
    pending := 0 }

/-- C2: receiving `token expiring` on a mounted session starts a fresh
credential exchange and leaves the consumer-visible state (log store,
history windows, baseline) untouched; the exchange resolving on a mounted
session swaps in a brand-new socket, again without touching consumer state;
if the session was torn down meanwhile the swap is abandoned (no socket is
created and `socketRef` is untouched); and across every event, a socket
that becomes closed does so only in the teardown step, at which point the
session is torn down — so the previous socket is never closed by the swap
itself. -/
theorem token_expiry_swap_spec :
    (∀ (s : Session ConsoleConsumer) (sid : Nat), s.isMounted = true →
        (step consoleOnMessage (SEvent.message sid WireMsg.tokenExpiring) s).consumer
            = s.consumer ∧
        (step consoleOnMessage (SEvent.message sid WireMsg.tokenExpiring) s).pending
            = s.pending + 1) ∧
    (∀ (s : Session MonitorConsumer) (sid : Nat), s.isMounted = true →
        (step monitorOnMessage (SEvent.message sid WireMsg.tokenExpiring) s).consumer
            = s.consumer ∧
        (step monitorOnMessage (SEvent.message sid WireMsg.tokenExpiring) s).pending
            = s.pending + 1) ∧
    (∀ (C : Type) (handle : WireMsg → C → C) (s : Session C), s.isMounted = true →
        (step handle SEvent.credsResolve s).consumer = s.consumer ∧
        (step handle SEvent.credsResolve s).socketRef = some s.nextSock ∧
        (step handle SEvent.credsResolve s).nextSock = s.nextSock + 1) ∧
    (∀ (C : Type) (handle : WireMsg → C → C) (s : Session C), s.isMounted = false →
        (step handle SEvent.credsResolve s).consumer = s.consumer ∧
        (step handle SEvent.credsResolve s).nextSock = s.nextSock ∧
        (step handle SEvent.credsResolve s).socketRef = s.socketRef) ∧
    (∀ (C : Type) (handle : WireMsg → C → C) (e : SEvent) (s : Session C) (i : Nat),
        ((step handle e s).sockSt i).closed = true →
        (s.sockSt i).closed = true ∨
          (e = SEvent.teardown ∧ (step handle e s).isMounted = false)) := by
  refine ⟨?_, ?_, ?_, ?_, ?_⟩
  · intro s sid h
    simp [step, h, consoleOnMessage, consoleOnMessageExc]
  · intro s sid h
    simp [step, h, monitorOnMessage, monitorOnMessageExc]
  · intro C handle s h
    simp [step, h]
  · intro C handle s h
    simp [step, h]
  · intro C handle e s i hclosed
    cases e with
    | connectStart => exact Or.inl hclosed
    | credsResolve =>
        by_cases h : s.isMounted = true
        · simp only [step, h, if_true] at hclosed
          by_cases hi : i = s.nextSock
          · simp [hi] at hclosed
          · simp only [hi, if_false] at hclosed
            exact Or.inl hclosed
        · simp only [step, Bool.not_eq_true] at h
          simp only [step, h, Bool.false_eq_true, if_false] at hclosed
          exact Or.inl hclosed
    | credsFail => exact Or.inl hclosed
    | sockOpen sid =>
        by_cases hi : i = sid
        · subst hi
          by_cases h : s.isMounted = true <;>
            simp_all [step]
        · by_cases h : s.isMounted = true <;>
            simp_all [step]
    | timerFire sid => exact Or.inl hclosed
    | message sid m =>
        by_cases h : s.isMounted = true
        · cases m <;> simp_all [step]
        · simp only [Bool.not_eq_true] at h
          simp only [step, h, Bool.false_eq_true, if_false] at hclosed
          exact Or.inl hclosed
    | sockError sid =>
        by_cases h : s.isMounted = true <;> simp_all [step]
    | sockClose sid =>
        by_cases h : s.isMounted = true <;> simp_all [step]
    | teardown =>
        refine Or.inr ⟨rfl, ?_⟩
        simp only [step]
        split
        · rfl
        · split <;> rfl

/-- C2 witness: the conjuncts of `token_expiry_swap_spec` evaluated on the
concrete sessions `sLiveConsole`, `sLiveMonitor` and `sDeadConsole`. -/
theorem token_expiry_swap_spec_witness :
    (step consoleOnMessage (SEvent.message 0 WireMsg.tokenExpiring) sLiveConsole).pending
        = sLiveConsole.pending + 1 ∧
    (step monitorOnMessage (SEvent.message 0 WireMsg.tokenExpiring) sLiveMonitor).consumer
        = sLiveMonitor.consumer ∧
    (step consoleOnMessage SEvent.credsResolve sLiveConsole).nextSock
        = sLiveConsole.nextSock + 1 ∧
    (step consoleOnMessage SEvent.credsResolve sDeadConsole).socketRef
        = sDeadConsole.socketRef ∧
    ((sLiveConsole.sockSt 0).closed = true ∨
      (SEvent.teardown = SEvent.teardown ∧
        (step consoleOnMessage SEvent.teardown sLiveConsole).isMounted = false)) :=
  ⟨(token_expiry_swap_spec.1 sLiveConsole 0 rfl).2,
   (token_expiry_swap_spec.2.1 sLiveMonitor 0 rfl).1,
   (token_expiry_swap_spec.2.2.1 ConsoleConsumer consoleOnMessage sLiveConsole rfl).2.2,
   (token_expiry_swap_spec.2.2.2.1 ConsoleConsumer consoleOnMessage sDeadConsole rfl).2.2,
   token_expiry_swap_spec.2.2.2.2 ConsoleConsumer consoleOnMessage SEvent.teardown
     sLiveConsole 0 (by decide)⟩

/-- A mounted console session whose socket never finished connecting. -/
def sConnecting : Session ConsoleConsumer :=
  { isMounted := true
    isConnected := false
    consumer := { logs := [], command := "" }
    nextSock := 1
    sockSt := fun _ => ⟨false, false⟩
    socketRef := some 0
    pending := 0 }

/-- C3: after teardown no pending timer or in-flight continuation mutates
consumer-visible state or throws — every event on an unmounted session
preserves the consumer state and the session stays unmounted; a message or
a backlog timer firing after teardown is a complete no-op; teardown itself
leaves consumer state alone; and the best-effort close never raises:
closing an established (even already closed) socket succeeds idempotently,
and when the socket never finished connecting the raised close error is
caught so teardown still completes with only the relevance flag cleared. -/
theorem teardown_quiesce_spec :
    (∀ (C : Type) (handle : WireMsg → C → C) (e : SEvent) (s : Session C),
        s.isMounted = false → (step handle e s).consumer = s.consumer) ∧
    (∀ (C : Type) (handle : WireMsg → C → C) (e : SEvent) (s : Session C),
        s.isMounted = false → (step handle e s).isMounted = false) ∧
    (∀ (sid : Nat) (m : WireMsg) (s : Session ConsoleConsumer),
        s.isMounted = false → step consoleOnMessage (SEvent.message sid m) s = s) ∧
    (∀ (sid : Nat) (m : WireMsg) (s : Session MonitorConsumer),
        s.isMounted = false → step monitorOnMessage (SEvent.message sid m) s = s) ∧
    (∀ (C : Type) (handle : WireMsg → C → C) (sid : Nat) (s : Session C),
        step handle (SEvent.timerFire sid) s = s) ∧
    (∀ (C : Type) (handle : WireMsg → C → C) (s : Session C),
        (step handle SEvent.teardown s).isMounted = false ∧
        (step handle SEvent.teardown s).consumer = s.consumer) ∧
    (∀ k : SocketState, k.established = true →
        wsCloseRaw k = Except.ok { k with closed := true }) ∧
    (∀ (C : Type) (handle : WireMsg → C → C) (sid : Nat) (s : Session C),
        s.socketRef = some sid → (s.sockSt sid).established = false →
        step handle SEvent.teardown s = { s with isMounted := false }) := by
  refine ⟨?_, ?_, ?_, ?_, ?_, ?_, ?_, ?_⟩
  · intro C handle e s h
    cases e with
    | teardown =>
        simp only [step]
        split
        · rfl
        · split <;> rfl
    | message sid m => simp [step, h]
    | _ => simp [step, h]
  · intro C handle e s h
    cases e with
    | teardown =>
        simp only [step]
        split
        · rfl
        · split <;> rfl
    | message sid m => simp [step, h]
    | _ => simp [step, h]
  · intro sid m s h
    simp [step, h]
  · intro sid m s h
    simp [step, h]
  · intro C handle sid s
    rfl
  · intro C handle s
    constructor
    · simp only [step]
      split
      · rfl
      · split <;> rfl
    · simp only [step]
      split
      · rfl
      · split <;> rfl
  · intro k h
    simp [wsCloseRaw, h]
  · intro C handle sid s hr hest
    simp only [step, hr, wsCloseRaw, hest]
    rfl

/-- C3 witness: the quiescence conjuncts evaluated on the torn-down session
`sDeadConsole` and on `sConnecting`, whose socket never finished
connecting. -/
theorem teardown_quiesce_spec_witness :
    (step consoleOnMessage SEvent.credsResolve sDeadConsole).consumer
        = sDeadConsole.consumer ∧
    step consoleOnMessage (SEvent.message 0 (WireMsg.consoleOutput ["late"])) sDeadConsole
        = sDeadConsole ∧
    step consoleOnMessage (SEvent.timerFire 0) sDeadConsole = sDeadConsole ∧
    wsCloseRaw ⟨true, true⟩ = Except.ok ⟨true, true⟩ ∧
    step consoleOnMessage SEvent.teardown sConnecting
        = { sConnecting with isMounted := false } :=
  ⟨teardown_quiesce_spec.1 ConsoleConsumer consoleOnMessage SEvent.credsResolve
      sDeadConsole rfl,
   teardown_quiesce_spec.2.2.1 0 (WireMsg.consoleOutput ["late"]) sDeadConsole rfl,
   teardown_quiesce_spec.2.2.2.2.1 ConsoleConsumer consoleOnMessage 0 sDeadConsole,
   teardown_quiesce_spec.2.2.2.2.2.2.1 ⟨true, true⟩ rfl,
   teardown_quiesce_spec.2.2.2.2.2.2.2 ConsoleConsumer consoleOnMessage 0 sConnecting
      rfl rfl⟩

/-- All four history channels hold exactly `MAX_HISTORY` elements. -/
def HistFull (c : MonitorConsumer) : Prop :=
  c.history.cpu.length = MAX_HISTORY ∧
  c.history.memory.length = MAX_HISTORY ∧
  c.history.networkIn.length = MAX_HISTORY ∧
  c.history.networkOut.length = MAX_HISTORY

/-- The monitor consumer state after an arbitrary inbound message sequence,
starting from the component's initial state. -/
def runMonitor (msgs : List WireMsg) : MonitorConsumer :=
  msgs.foldl (fun acc m => monitorOnMessage m acc) initialMonitor

lemma currentValue_concat (l : List ℚ) (v : ℚ) : currentValue (l ++ [v]) = some v := by
  simp [currentValue]

lemma pushWindow_length (w : List ℚ) (v : ℚ) (h : w.length = MAX_HISTORY) :
    (pushWindow w v).length = MAX_HISTORY := by
  have h1 : (pushWindow w v).length = w.length - 1 + 1 := by
    simp [pushWindow]
  rw [h1, h]
  rfl

lemma histFull_step (m : WireMsg) (c : MonitorConsumer) (h : HistFull c) :
    HistFull (monitorOnMessage m c) := by
  cases m with
  | stats payload =>
      cases payload with
      | none => exact h
      | some d =>
          obtain ⟨h1, h2, h3, h4⟩ := h
          exact ⟨pushWindow_length _ _ h1, pushWindow_length _ _ h2,
            pushWindow_length _ _ h3, pushWindow_length _ _ h4⟩
  | malformed => exact h
  | consoleOutput args => exact h
  | tokenExpiring => exact h
  | other e => exact h

lemma histFull_run (msgs : List WireMsg) (c : MonitorConsumer) (h : HistFull c) :
    HistFull (msgs.foldl (fun acc m => monitorOnMessage m acc) c) := by
  induction msgs generalizing c with
  | nil => exact h
  | cons m t ih => exact ih _ (histFull_step m c h)

/-- C4: each history window holds exactly `MAX_HISTORY` = 40 elements at
all times — the initial windows are filled with the neutral value 0; a push
on a full window drops the oldest (leftmost) element and appends the new
value at the right, preserving the length and making the new value the
"current value" readout (the last element); and after any sequence of
inbound messages processed from the initial state, all four channels still
hold exactly 40 elements. -/
theorem history_window_spec :
    (initialHistory.cpu = List.replicate MAX_HISTORY 0 ∧
     initialHistory.memory = List.replicate MAX_HISTORY 0 ∧
     initialHistory.networkIn = List.replicate MAX_HISTORY 0 ∧
     initialHistory.networkOut = List.replicate MAX_HISTORY 0) ∧
    (∀ (w : List ℚ) (v : ℚ), w.length = MAX_HISTORY →
        pushWindow w v = w.tail ++ [v] ∧
        (pushWindow w v).length = MAX_HISTORY ∧
        currentValue (pushWindow w v) = some v) ∧
    (∀ msgs : List WireMsg, HistFull (runMonitor msgs)) := by
  refine ⟨⟨rfl, rfl, rfl, rfl⟩, ?_, ?_⟩
  · intro w v h
    refine ⟨?_, ?_, ?_⟩
    · simp [pushWindow, List.drop_one]
    · exact pushWindow_length w v h
    · exact currentValue_concat _ v
  · intro msgs
    exact histFull_run msgs initialMonitor ⟨rfl, rfl, rfl, rfl⟩

/-- C4 witness: one push on the full initial window, evaluated. -/
theorem history_window_spec_witness :
    (pushWindow (List.replicate MAX_HISTORY 0) 7).length = MAX_HISTORY ∧
    currentValue (pushWindow (List.replicate MAX_HISTORY 0) 7) = some 7 :=
  ⟨(history_window_spec.2.1 (List.replicate MAX_HISTORY 0) 7 (by simp)).2.1,
   (history_window_spec.2.1 (List.replicate MAX_HISTORY 0) 7 (by simp)).2.2⟩
